import Mathlib

/-!
Verification of the API client facade in `frontend/src/api/index.js`.

The source file creates one axios client (`axios.create` with a `baseURL`
resolved from `import.meta?.env?.VITE_API_URL || 'http://localhost:8000'`
and `timeout: 30000`), installs a response interceptor
(`(res) => res.data`, `(err) => Promise.reject(err)`), and exports two
helpers plus the client itself as the default export:

  getDashboardData (userId, days) => api.get(template path, params days)
  analyzeEmotion (text, userId)   => api.post(fixed path, body)

The embedding below models JS values, the environment lookup with its
optional chaining and falsy fallback, the client as a configuration plus a
list of response interceptors, each helper call as the construction of one
request record, and the promise outcome of a call as `Except` over the
transport result with the interceptor chain applied.
-/

namespace ApiFacade

/-- A JavaScript value, as far as this module manipulates them: the helpers
pass caller-supplied values through verbatim, the interceptor reads the
`data` field of a response object. -/
inductive JSValue where
  | undefined
  | null
  | bool (b : Bool)
  | num (n : Int)
  | str (s : String)
  | obj (fields : List (String × JSValue))

/-- Conversion applied by a JS template literal to an interpolated value,
as in the backtick path of `getDashboardData`. -/
def jsToString : JSValue → String
  | .undefined => "undefined"
  | .null => "null"
  | .bool b => if b then "true" else "false"
  | .num n => toString n
  | .str s => s
  | .obj _ => "[object Object]"

/-- Property access `o.k` on a JS object: the first binding of the key, or
`undefined` when the key is absent or the receiver is not an object. -/
def getField : JSValue → String → JSValue
  | .obj fields, k => (List.lookup k fields).getD .undefined
  | _, _ => .undefined

/-- State of the `import.meta?.env?.VITE_API_URL` optional chain: the
`import.meta` object may be missing, its `env` object may be missing, the
variable may be unset, or it may hold a string. -/
inductive ImportMetaEnv where
  | noMeta
  | noEnv
  | noVar
  | value (s : String)

/-- Result of evaluating the optional chain: `none` models `undefined`. -/
def viteApiUrl : ImportMetaEnv → Option String
  | .value s => some s
  | _ => none

/-- JS `x || d` for a possibly-undefined string `x`: the default is taken
whenever `x` is falsy, i.e. `undefined` or the empty string. -/
def jsStringOr (x : Option String) (d : String) : String :=
  match x with
  | none => d
  | some s => if s = "" then d else s

/-- The options object passed to `axios.create`. -/
structure ClientConfig where
  baseURL : String
  timeout : Nat

/-- The config literal in the source: base URL from the environment chain
with the `http://localhost:8000` fallback, timeout 30000. -/
def createApiConfig (e : ImportMetaEnv) : ClientConfig :=
  { baseURL := jsStringOr (viteApiUrl e) "http://localhost:8000"
  , timeout := 30000 }

/-- A response interceptor as registered with `interceptors.response.use`:
a fulfillment handler and a rejection handler. Returning a value is `.ok`;
`Promise.reject` is `.error`. -/
structure ResponseInterceptor where
  onFulfilled : JSValue → Except JSValue JSValue
  onRejected : JSValue → Except JSValue JSValue

/-- The fulfillment handler installed by the module: `(res) => res.data`. -/
def bodyUnwrapOnFulfilled (res : JSValue) : Except JSValue JSValue :=
  .ok (getField res "data")

/-- The rejection handler installed by the module:
`(err) => Promise.reject(err)`. -/
def bodyUnwrapOnRejected (err : JSValue) : Except JSValue JSValue :=
  .error err

/-- The one interceptor pair the module registers at load time. -/
def bodyUnwrapInterceptor : ResponseInterceptor :=
  { onFulfilled := bodyUnwrapOnFulfilled, onRejected := bodyUnwrapOnRejected }

/-- An axios client: its creation-time configuration together with the
registered response interceptors, in registration order. -/
structure Client where
  config : ClientConfig
  responseInterceptors : List ResponseInterceptor

/-- `axios.create(cfg)` yields a client with no interceptors yet. -/
def axiosCreate (cfg : ClientConfig) : Client :=
  { config := cfg, responseInterceptors := [] }

/-- `client.interceptors.response.use(onF, onR)` appends an interceptor. -/
def interceptorsResponseUse (c : Client) (i : ResponseInterceptor) : Client :=
  { c with responseInterceptors := c.responseInterceptors ++ [i] }

/-- One interceptor applied to a settled promise: the fulfillment handler
on a resolution, the rejection handler on a rejection. -/
def applyInterceptor (i : ResponseInterceptor) :
    Except JSValue JSValue → Except JSValue JSValue
  | .ok v => i.onFulfilled v
  | .error e => i.onRejected e

/-- The whole interceptor chain, in registration order. -/
def applyInterceptors (is : List ResponseInterceptor)
    (r : Except JSValue JSValue) : Except JSValue JSValue :=
  is.foldl (fun acc i => applyInterceptor i acc) r

/-- HTTP method of a request issued by the client. -/
inductive HttpMethod where
  | get
  | post
deriving DecidableEq

/-- A request as handed to the transport: method, relative URL, query
parameters, optional body, and a per-request timeout override (never set
by this module, but part of the axios request config). -/
structure HttpRequest where
  method : HttpMethod
  url : String
  params : List (String × JSValue)
  body : Option JSValue
  timeoutOverride : Option Nat

/-- The single request built by one `getDashboardData(userId, days)` call:
`api.get` of the template-literal path with `{ params: { days } }` and no
body. -/
def getDashboardDataRequest (userId days : JSValue) : HttpRequest :=
  { method := .get
  , url := "/api/users/" ++ jsToString userId ++ "/dashboard"
  , params := [("days", days)]
  , body := none
  , timeoutOverride := none }

/-- The single request built by one `analyzeEmotion(text, userId)` call:
`api.post` of the fixed path with body `{ text, user_id: userId }`. -/
def analyzeEmotionRequest (text userId : JSValue) : HttpRequest :=
  { method := .post
  , url := "/api/analysis/emotion"
  , params := []
  , body := some (.obj [("text", text), ("user_id", userId)])
  , timeoutOverride := none }

/-- Absolute URL the transport targets: the relative request URL resolved
against the client's base URL. -/
def requestURL (c : Client) (r : HttpRequest) : String :=
  c.config.baseURL ++ r.url

/-- The timeout in force for one request: the per-request override when
present, otherwise the client-wide timeout. -/
def effectiveTimeout (c : Client) (r : HttpRequest) : Nat :=
  (r.timeoutOverride).getD c.config.timeout

/-- The transport's verdict on one exchange: `.ok` carries the full
response object (status, headers, data), `.error` carries whatever error
object the transport produced. -/
abbrev TransportResult := Except JSValue JSValue

/-- A full axios response object as a JS value: the status/header wrapper
around the deserialized body `d`. -/
def mkAxiosResponse (status headers d : JSValue) : JSValue :=
  .obj [("status", status), ("headers", headers), ("data", d)]

/-- What one request through the client settles to, given the transport
result: the client's interceptor chain applied to that result. -/
def clientRequest (c : Client) (tr : TransportResult) : TransportResult :=
  applyInterceptors c.responseInterceptors tr

/-- The module's state: the shared client, which is also the default
export. Module load runs `axios.create` and then registers the body-unwrap
interceptor on it. -/
structure ApiModule where
  api : Client

/-- Module initialization, parameterized by the environment. -/
def initApiModule (e : ImportMetaEnv) : ApiModule :=
  { api := interceptorsResponseUse (axiosCreate (createApiConfig e))
      bodyUnwrapInterceptor }

/-- The module's default export. -/
def defaultExport (m : ApiModule) : Client :=
  m.api

/-- A caller registering a further response interceptor on the default
export, as `api.interceptors.response.use(...)` would. -/
def attachResponseInterceptor (m : ApiModule) (i : ResponseInterceptor) :
    ApiModule :=
  { api := interceptorsResponseUse m.api i }

/-- One helper call as a step over the module state: it reads the shared
client, settles the promise from the transport result, and leaves the
module state as it found it (no source line mutates `api` after load). -/
def callStep (m : ApiModule) (r : HttpRequest) (tr : TransportResult) :
    ApiModule × TransportResult :=
  (m, clientRequest m.api tr)

/-- Promise outcome of `getDashboardData(userId, days)` given the
transport result of its one request. The request itself is
`getDashboardDataRequest userId days`. -/
def getDashboardDataCall (m : ApiModule) (userId days : JSValue)
    (tr : TransportResult) : TransportResult :=
  (callStep m (getDashboardDataRequest userId days) tr).2

/-- Promise outcome of `analyzeEmotion(text, userId)` given the transport
result of its one request, `analyzeEmotionRequest text userId`. -/
def analyzeEmotionCall (m : ApiModule) (text userId : JSValue)
    (tr : TransportResult) : TransportResult :=
  (callStep m (analyzeEmotionRequest text userId) tr).2

/-- Two calls executed one after the other over the shared module state,
returning the final state and the pair of outcomes in issue order. -/
def runTwo (m : ApiModule) (r1 r2 : HttpRequest) (t1 t2 : TransportResult) :
    ApiModule × (TransportResult × TransportResult) :=
  match callStep m r1 t1 with
  | (m1, o1) =>
    match callStep m1 r2 t2 with
    | (m2, o2) => (m2, (o1, o2))

/-- Segments of a URL path, split on the `/` separator; used to observe
how an unescaped identifier changes the route. -/
def pathSegments (s : String) : List String :=
  (s.toList.splitOn (Char.ofNat 47)).map (fun cs => String.mk cs)

end ApiFacade

namespace ApiFacade

/-- Claim C1: for every request through either helper whose transport
exchange succeeds with a full response object, the caller's promise
resolves with exactly the deserialized body, the status/header wrapper
stripped; and the unwrapping interceptor applies to every request made
through the client. -/
theorem c1_success_unwraps_body (e : ImportMetaEnv)
    (userId days text s h d : JSValue) :
    getDashboardDataCall (initApiModule e) userId days
        (.ok (mkAxiosResponse s h d)) = .ok d ∧
    analyzeEmotionCall (initApiModule e) text userId
        (.ok (mkAxiosResponse s h d)) = .ok d ∧
    ∀ res : JSValue, clientRequest (initApiModule e).api (.ok res) =
        .ok (getField res "data") := by
  refine ⟨?_, ?_, fun res => ?_⟩ <;> rfl

/-- Claim C2: every failing request through either helper rejects with the
very error object the transport produced, unchanged; and the pass-through
applies to every request made through the client. -/
theorem c2_failure_propagates_unchanged (e : ImportMetaEnv)
    (userId days text err : JSValue) :
    getDashboardDataCall (initApiModule e) userId days (.error err) =
        .error err ∧
    analyzeEmotionCall (initApiModule e) text userId (.error err) =
        .error err ∧
    clientRequest (initApiModule e).api (.error err) = .error err := by
  exact ⟨rfl, rfl, rfl⟩

/-- Claim C3: `getDashboardData(userId, days)` builds exactly one GET
request to `/api/users/{userId}/dashboard` with `days` as the query
parameter named `days` and no body; in particular `getDashboardData(42, 7)`
requests `/api/users/42/dashboard` with `days=7`. -/
theorem c3_getDashboardData_request_shape (userId days : JSValue) :
    (getDashboardDataRequest userId days).method = .get ∧
    (getDashboardDataRequest userId days).url =
        "/api/users/" ++ jsToString userId ++ "/dashboard" ∧
    (getDashboardDataRequest userId days).params = [("days", days)] ∧
    (getDashboardDataRequest userId days).body = none ∧
    (getDashboardDataRequest (.num 42) (.num 7)).url =
        "/api/users/42/dashboard" ∧
    (getDashboardDataRequest (.num 42) (.num 7)).params =
        [("days", .num 7)] := by
  exact ⟨rfl, rfl, rfl, rfl, rfl, rfl⟩

/-- Claim C4: `analyzeEmotion(text, userId)` builds exactly one POST
request to the fixed path `/api/analysis/emotion` whose body is the object
with `text` under key `text` and `userId` under key `user_id`, both passed
through verbatim. -/
theorem c4_analyzeEmotion_request_shape (text userId : JSValue) :
    (analyzeEmotionRequest text userId).method = .post ∧
    (analyzeEmotionRequest text userId).url = "/api/analysis/emotion" ∧
    (analyzeEmotionRequest text userId).params = [] ∧
    (analyzeEmotionRequest text userId).body =
        some (.obj [("text", text), ("user_id", userId)]) ∧
    (analyzeEmotionRequest (.str "I feel great") (.num 42)).body =
        some (.obj [("text", .str "I feel great"),
                    ("user_id", .num 42)]) := by
  exact ⟨rfl, rfl, rfl, rfl, rfl⟩

/-- Claim C5: with the environment override absent, the client's base URL
is `http://localhost:8000`, and every request from either helper resolves
against that authority. -/
theorem c5_default_base_url (userId days text : JSValue) :
    (createApiConfig .noVar).baseURL = "http://localhost:8000" ∧
    (initApiModule .noVar).api.config.baseURL = "http://localhost:8000" ∧
    requestURL (initApiModule .noVar).api
        (getDashboardDataRequest userId days) =
      "http://localhost:8000" ++
        (getDashboardDataRequest userId days).url ∧
    requestURL (initApiModule .noVar).api
        (analyzeEmotionRequest text userId) =
      "http://localhost:8000" ++ (analyzeEmotionRequest text userId).url := by
  exact ⟨rfl, rfl, rfl, rfl⟩

/-- Claim C6: the client configuration is fixed at module load with a
30000 ms timeout; every request issued by either helper carries that
timeout (neither helper sets a per-request override), and a helper call
leaves the module state, hence the configuration, unchanged. -/
theorem c6_fixed_timeout_immutable_config (e : ImportMetaEnv)
    (userId days text : JSValue) (r : HttpRequest) (tr : TransportResult) :
    (createApiConfig e).timeout = 30000 ∧
    effectiveTimeout (initApiModule e).api
        (getDashboardDataRequest userId days) = 30000 ∧
    effectiveTimeout (initApiModule e).api
        (analyzeEmotionRequest text userId) = 30000 ∧
    (callStep (initApiModule e) r tr).1 = initApiModule e := by
  exact ⟨rfl, rfl, rfl, rfl⟩

/-- Claim C7: two helper calls over the shared module state are
independent and non-interfering: each outcome equals what that call
produces alone from its own transport result, swapping the issue order
swaps but never alters the outcomes, and the shared state is unchanged. -/
theorem c7_concurrent_calls_independent (e : ImportMetaEnv)
    (userId days text userId2 : JSValue) (t1 t2 : TransportResult) :
    (runTwo (initApiModule e) (getDashboardDataRequest userId days)
        (analyzeEmotionRequest text userId2) t1 t2).2.1 =
      (callStep (initApiModule e)
        (getDashboardDataRequest userId days) t1).2 ∧
    (runTwo (initApiModule e) (getDashboardDataRequest userId days)
        (analyzeEmotionRequest text userId2) t1 t2).2.2 =
      (callStep (initApiModule e)
        (analyzeEmotionRequest text userId2) t2).2 ∧
    (runTwo (initApiModule e) (getDashboardDataRequest userId days)
        (analyzeEmotionRequest text userId2) t1 t2).2.1 =
      (runTwo (initApiModule e) (analyzeEmotionRequest text userId2)
        (getDashboardDataRequest userId days) t2 t1).2.2 ∧
    (runTwo (initApiModule e) (getDashboardDataRequest userId days)
        (analyzeEmotionRequest text userId2) t1 t2).1 =
      initApiModule e := by
  exact ⟨rfl, rfl, rfl, rfl⟩

/-- Claim C8: the dashboard path is raw string interpolation with no
URL-encoding, so a `userId` holding reserved characters such as `/`, `?`
or `#` lands verbatim in the URL; a slash adds a path segment instead of
being escaped into one segment. -/
theorem c8_raw_path_interpolation (userId : JSValue) :
    (getDashboardDataRequest userId (.num 7)).url =
        "/api/users/" ++ jsToString userId ++ "/dashboard" ∧
    (getDashboardDataRequest (.str "1/evil") (.num 7)).url =
        "/api/users/1/evil/dashboard" ∧
    (getDashboardDataRequest (.str "a?b") (.num 7)).url =
        "/api/users/a?b/dashboard" ∧
    (getDashboardDataRequest (.str "x#y") (.num 7)).url =
        "/api/users/x#y/dashboard" ∧
    pathSegments (getDashboardDataRequest (.str "1/evil") (.num 7)).url =
        ["", "api", "users", "1", "evil", "dashboard"] ∧
    pathSegments (getDashboardDataRequest (.str "42") (.num 7)).url =
        ["", "api", "users", "42", "dashboard"] := by
  refine ⟨rfl, rfl, rfl, rfl, ?_, ?_⟩ <;> decide

/-- Claim C9: the fallback to `http://localhost:8000` fires on any falsy
override, not only on absence: an empty-string override, a missing
`import.meta`, and a missing `env` object all yield the default, while a
non-empty override is used as given. -/
theorem c9_falsy_fallback :
    (createApiConfig (.value "")).baseURL = "http://localhost:8000" ∧
    (createApiConfig .noMeta).baseURL = "http://localhost:8000" ∧
    (createApiConfig .noEnv).baseURL = "http://localhost:8000" ∧
    (createApiConfig .noVar).baseURL = "http://localhost:8000" ∧
    (createApiConfig (.value "http://example.com")).baseURL =
        "http://example.com" := by
  refine ⟨?_, rfl, rfl, rfl, ?_⟩ <;> decide

/-- Claim C10: both helpers go through the one shared client that is the
default export, so an interceptor a caller attaches to the default export
applies, after the module's own unwrapping, to every subsequent request of
either helper. -/
theorem c10_shared_client_interceptors (e : ImportMetaEnv)
    (i : ResponseInterceptor) (userId days text : JSValue)
    (tr : TransportResult) :
    defaultExport (initApiModule e) = (initApiModule e).api ∧
    getDashboardDataCall (attachResponseInterceptor (initApiModule e) i)
        userId days tr =
      applyInterceptor i
        (getDashboardDataCall (initApiModule e) userId days tr) ∧
    analyzeEmotionCall (attachResponseInterceptor (initApiModule e) i)
        text userId tr =
      applyInterceptor i
        (analyzeEmotionCall (initApiModule e) text userId tr) := by
  refine ⟨rfl, ?_, ?_⟩ <;>
    simp [getDashboardDataCall, analyzeEmotionCall, callStep, clientRequest,
      attachResponseInterceptor, interceptorsResponseUse, applyInterceptors,
      List.foldl_append]

end ApiFacade
